import Mathlib

/-!
Shallow embedding of the chainlink-mirror core contracts
(src/contracts/reactive/ChainlinkFeedReactor.sol: contract
ChainlinkFeedReactor and contract FeedProxy) together with theorems
settling the behavioural claims about them.

Modelling conventions:
  - addresses and bytes32 keys are modelled as Nat (opaque identifiers,
    the zero address is 0);
  - uint80 / uint256 are Nat, int256 is Int; overflow or underflow of
    checked Solidity 0.8 arithmetic is modelled explicitly where it is
    reachable (the deviation computation, the heartbeat sum, the
    staleness subtraction) by returning an error or Option.none,
    standing for the EVM revert / panic;
  - the uint256 cast of a signed value wraps (twos complement), which
    the model expresses with emod by 2^256;
  - a reverting call leaves the state unchanged, hence fallible
    operations return Except with the error naming the require message
    or custom error; event emissions have no state effect and are not
    modelled.
-/

namespace ChainlinkMirror

def BASIS_POINTS : Nat := 10000

def DEFAULT_DEVIATION : Nat := 50

/-- One hour (the Solidity literal 1 hours) in seconds. -/
def DEFAULT_HEARTBEAT : Nat := 3600

def UINT256_MOD : Nat := 2 ^ 256

def UINT32_MOD : Nat := 2 ^ 32

/-- Largest value representable in int256. -/
def INT256_MAX : Int := 2 ^ 255 - 1

/-- UpdateReason enum from IChainlinkFeedReactorEvents. -/
inductive UpdateReason where
  | FirstUpdate
  | DeviationThreshold
  | HeartbeatExpired
deriving DecidableEq

/-- struct FeedConfig of ChainlinkFeedReactor. -/
structure FeedConfig where
  originChainId : Nat
  feedAddress : Nat
  destinationChainId : Nat
  destinationProxy : Nat
  decimals : Nat
  description : String
  deviationThreshold : Nat
  heartbeat : Nat
  lastSentPrice : Int
  lastSentTime : Nat
  lastProcessedRoundId : Nat
  active : Bool
deriving DecidableEq

/-- struct FeedMetrics of ChainlinkFeedReactor. -/
structure FeedMetrics where
  totalEventsReceived : Nat
  updatesForwarded : Nat
  updatesSkipped : Nat
  deviationTriggered : Nat
  heartbeatTriggered : Nat
  estimatedGasSaved : Nat
deriving DecidableEq

/-- Default value of the feeds mapping (all-zero struct). -/
def emptyFeedConfig : FeedConfig :=
  ⟨0, 0, 0, 0, 0, "", 0, 0, 0, 0, 0, false⟩

/-- Default value of the metrics mapping (all-zero struct). -/
def zeroMetrics : FeedMetrics := ⟨0, 0, 0, 0, 0, 0⟩

/-- Storage of contract ChainlinkFeedReactor. -/
structure ReactorState where
  feeds : Nat → FeedConfig
  metrics : Nat → FeedMetrics
  feedIds : List Nat
  owner : Nat

/-- Failure outcomes of the reactor operations: require messages, plus
Panic for a checked-arithmetic revert. -/
inductive RErr where
  | NotOwner
  | InvalidFeedAddress
  | InvalidProxyAddress
  | InvalidDeviation
  | HeartbeatTooShort
  | FeedAlreadyRegistered
  | FeedNotActive
  | Panic
deriving DecidableEq

/-- keccak256(abi.encodePacked(originChainId, feedAddress)) modelled as an
injective pairing of the two inputs: the claims only use that the FeedId is
a function of (originChainId, feedAddress). -/
def feedIdOf (originChainId feedAddress : Nat) : Nat :=
  Nat.pair originChainId feedAddress

/-- function _calculateDeviation. The ternary computes the absolute
difference with checked int256 subtraction (none = revert on overflow);
the product with BASIS_POINTS is checked uint256 multiplication; the cast
uint256(oldPrice) wraps twos complement. -/
def calculateDeviation (newPrice oldPrice : Int) : Option Nat :=
  if oldPrice = 0 then some BASIS_POINTS
  else
    let diff : Int := if oldPrice < newPrice then newPrice - oldPrice else oldPrice - newPrice
    if INT256_MAX < diff then none
    else if UINT256_MOD ≤ diff.toNat * BASIS_POINTS then none
    else some (diff.toNat * BASIS_POINTS / (oldPrice % (UINT256_MOD : Int)).toNat)

/-- function _shouldForward (underscore dropped from the source name).
The sum lastSentTime + heartbeat is checked uint256 addition. -/
def shouldForward (config : FeedConfig) (newPrice : Int) (updatedAt : Nat) :
    Option (Bool × UpdateReason) :=
  if config.lastSentPrice = 0 then some (true, UpdateReason.FirstUpdate)
  else
    match calculateDeviation newPrice config.lastSentPrice with
    | none => none
    | some deviation =>
      if config.deviationThreshold ≤ deviation then some (true, UpdateReason.DeviationThreshold)
      else if UINT256_MOD ≤ config.lastSentTime + config.heartbeat then none
      else if config.lastSentTime + config.heartbeat ≤ updatedAt then
        some (true, UpdateReason.HeartbeatExpired)
      else some (false, UpdateReason.FirstUpdate)

/-- function pollFeed. Returns the post-state together with the
(shouldForward, reason) pair; errors model reverts (state rolled back). -/
def pollFeed (s : ReactorState) (feedId roundId : Nat) (answer : Int)
    (updatedAt answeredInRound : Nat) :
    Except RErr (ReactorState × Bool × UpdateReason) :=
  let config := s.feeds feedId
  let m := s.metrics feedId
  if ¬ (config.active = true ∧ config.feedAddress ≠ 0) then Except.error RErr.FeedNotActive
  else if roundId ≤ config.lastProcessedRoundId then
    Except.ok (s, false, UpdateReason.FirstUpdate)
  else
    let config' := { config with lastProcessedRoundId := roundId }
    let m' := { m with totalEventsReceived := m.totalEventsReceived + 1 }
    if answer ≤ 0 then
      Except.ok
        ({ s with
            feeds := fun f => if f = feedId then config' else s.feeds f,
            metrics := fun f =>
              if f = feedId then { m' with updatesSkipped := m'.updatesSkipped + 1 }
              else s.metrics f },
         false, UpdateReason.FirstUpdate)
    else
      match shouldForward config' answer updatedAt with
      | none => Except.error RErr.Panic
      | some (b, r) =>
        if b = false then
          Except.ok
            ({ s with
                feeds := fun f => if f = feedId then config' else s.feeds f,
                metrics := fun f =>
                  if f = feedId then
                    { m' with
                        updatesSkipped := m'.updatesSkipped + 1,
                        estimatedGasSaved := m'.estimatedGasSaved + 200000 }
                  else s.metrics f },
             false, r)
        else
          Except.ok
            ({ s with
                feeds := fun f => if f = feedId then config' else s.feeds f,
                metrics := fun f => if f = feedId then m' else s.metrics f },
             true, r)

/-- function confirmForward. -/
def confirmForward (s : ReactorState) (feedId : Nat) (answer : Int)
    (updatedAt : Nat) (reason : UpdateReason) : Except RErr ReactorState :=
  let config := s.feeds feedId
  let m := s.metrics feedId
  if config.active = false then Except.error RErr.FeedNotActive
  else
    Except.ok
      { s with
          feeds := fun f =>
            if f = feedId then { config with lastSentPrice := answer, lastSentTime := updatedAt }
            else s.feeds f,
          metrics := fun f =>
            if f = feedId then
              { m with
                  updatesForwarded := m.updatesForwarded + 1,
                  deviationTriggered :=
                    m.deviationTriggered +
                      (if reason = UpdateReason.DeviationThreshold then 1 else 0),
                  heartbeatTriggered :=
                    m.heartbeatTriggered +
                      (if reason = UpdateReason.HeartbeatExpired then 1 else 0) }
            else s.metrics f }

/-- function registerFeed. The sender argument models msg.sender
(onlyOwner modifier checked first). -/
def registerFeed (s : ReactorState) (sender : Nat)
    (originChainId feedAddress destinationChainId destinationProxy decimals : Nat)
    (description : String) (deviationThreshold heartbeat : Nat) :
    Except RErr (ReactorState × Nat) :=
  if sender ≠ s.owner then Except.error RErr.NotOwner
  else if feedAddress = 0 then Except.error RErr.InvalidFeedAddress
  else if destinationProxy = 0 then Except.error RErr.InvalidProxyAddress
  else if ¬ (0 < deviationThreshold ∧ deviationThreshold ≤ BASIS_POINTS) then
    Except.error RErr.InvalidDeviation
  else if heartbeat < 60 then Except.error RErr.HeartbeatTooShort
  else
    let feedId := feedIdOf originChainId feedAddress
    if (s.feeds feedId).feedAddress ≠ 0 then Except.error RErr.FeedAlreadyRegistered
    else
      Except.ok
        ({ s with
            feeds := fun f =>
              if f = feedId then
                ⟨originChainId, feedAddress, destinationChainId, destinationProxy,
                  decimals, description, deviationThreshold, heartbeat, 0, 0, 0, true⟩
              else s.feeds f,
            feedIds := s.feedIds ++ [feedId] },
         feedId)

/-- function registerFeedDefault. It performs an external self-call
this.registerFeed(...), so the inner msg.sender is the contract address
contractAddr, not the original caller. -/
def registerFeedDefault (s : ReactorState) (sender contractAddr : Nat)
    (originChainId feedAddress destinationChainId destinationProxy decimals : Nat)
    (description : String) : Except RErr (ReactorState × Nat) :=
  if sender ≠ s.owner then Except.error RErr.NotOwner
  else
    registerFeed s contractAddr originChainId feedAddress destinationChainId
      destinationProxy decimals description DEFAULT_DEVIATION DEFAULT_HEARTBEAT

/-! ## FeedProxy (the destination round store) -/

/-- struct RoundData of FeedProxy. The updatedAt field is declared uint32
in the source, so the stored value is the written timestamp mod 2^32. -/
structure RoundData where
  roundId : Nat
  answeredInRound : Nat
  startedAt : Nat
  updatedAt : Nat
  answer : Int
deriving DecidableEq

/-- Default value of the rounds mapping. -/
def zeroRound : RoundData := ⟨0, 0, 0, 0, 0⟩

/-- Storage of contract FeedProxy (immutable heartbeat included). -/
structure ProxyState where
  heartbeat : Nat
  latestRound : RoundData
  rounds : Nat → RoundData
  owner : Nat
  authorizedSenders : Nat → Bool
  paused : Bool
  totalUpdates : Nat

/-- Failure outcomes of FeedProxy operations: the custom errors, plus
Panic for a checked-arithmetic revert (underflow or overflow). -/
inductive PErr where
  | Unauthorized
  | Paused
  | InvalidRound
  | InvalidAnswer
  | StaleData
  | NoDataAvailable
  | Panic
deriving DecidableEq

/-- Freshly constructed FeedProxy (constructor requires heartbeat ≠ 0). -/
def proxyInit (ownerAddr heartbeat : Nat) : ProxyState :=
  { heartbeat := heartbeat
    latestRound := zeroRound
    rounds := fun _ => zeroRound
    owner := ownerAddr
    authorizedSenders := fun _ => false
    paused := false
    totalUpdates := 0 }

/-- function updateRoundData. blockTimestamp models block.timestamp at the
call. The subtraction blockTimestamp - updatedAt is checked uint256
arithmetic (Panic on underflow), as is the product heartbeat * 2. -/
def updateRoundData (s : ProxyState) (sender blockTimestamp : Nat)
    (roundId : Nat) (answer : Int) (updatedAt answeredInRound : Nat) :
    Except PErr ProxyState :=
  if s.authorizedSenders sender = false then Except.error PErr.Unauthorized
  else if s.paused then Except.error PErr.Paused
  else if roundId ≤ s.latestRound.roundId then Except.error PErr.InvalidRound
  else if answer ≤ 0 then Except.error PErr.InvalidAnswer
  else if blockTimestamp < updatedAt then Except.error PErr.Panic
  else if UINT256_MOD ≤ s.heartbeat * 2 then Except.error PErr.Panic
  else if s.heartbeat * 2 < blockTimestamp - updatedAt then Except.error PErr.StaleData
  else
    let newRound : RoundData :=
      ⟨roundId, answeredInRound, updatedAt, updatedAt % UINT32_MOD, answer⟩
    Except.ok
      { s with
          latestRound := newRound,
          rounds := fun r => if r = roundId then newRound else s.rounds r,
          totalUpdates := s.totalUpdates + 1 }

/-- function getRoundData: returns (roundId, answer, startedAt, updatedAt,
answeredInRound) as the source does, reading both timestamps from the
stored 32-bit updatedAt field. -/
def getRoundData (s : ProxyState) (roundId : Nat) :
    Except PErr (Nat × Int × Nat × Nat × Nat) :=
  let round := s.rounds roundId
  if round.updatedAt = 0 then Except.error PErr.NoDataAvailable
  else Except.ok (round.roundId, round.answer, round.updatedAt, round.updatedAt,
    round.answeredInRound)

/-! ## Call-sequence plumbing -/

/-- One updateRoundData call request (sender, block time, arguments). -/
structure WriteReq where
  sender : Nat
  time : Nat
  roundId : Nat
  answer : Int
  updatedAt : Nat
  answeredInRound : Nat
deriving DecidableEq

/-- The state after one updateRoundData call: a revert leaves the state
unchanged. -/
def applyWrite (s : ProxyState) (w : WriteReq) : ProxyState :=
  match updateRoundData s w.sender w.time w.roundId w.answer w.updatedAt w.answeredInRound with
  | Except.ok s' => s'
  | Except.error _ => s

/-- Fold a sequence of updateRoundData calls over the store. -/
def applyWrites (s : ProxyState) (l : List WriteReq) : ProxyState :=
  l.foldl applyWrite s

/-- One pollFeed call request. -/
structure PollReq where
  feedId : Nat
  roundId : Nat
  answer : Int
  updatedAt : Nat
  answeredInRound : Nat
deriving DecidableEq

/-- The state after one pollFeed call: a revert leaves the state
unchanged. -/
def pollStep (s : ReactorState) (q : PollReq) : ReactorState :=
  match pollFeed s q.feedId q.roundId q.answer q.updatedAt q.answeredInRound with
  | Except.ok (s', _, _) => s'
  | Except.error _ => s

/-- Fold a sequence of pollFeed calls over the reactor. -/
def applyPolls (s : ReactorState) (l : List PollReq) : ReactorState :=
  l.foldl pollStep s

/-! ## The spec-side policy definition (for the refinement claim about
the deviation/heartbeat policy) -/

/-- Modelled from the spec wording of the Deviation/Heartbeat Policy,
section 4.1: rules evaluated in order, first match wins, with
deviationBps = |newPrice - lastPrice| * 10000 / lastPrice using
truncating integer division. Used only to compare against the source
function shouldForward. -/
def decideSpec (lastPrice : Int) (lastTime : Nat) (thresholdBps heartbeatSec : Nat)
    (newPrice : Int) (newTime : Nat) : Bool × UpdateReason :=
  if lastPrice = 0 then (true, UpdateReason.FirstUpdate)
  else if (thresholdBps : Int) ≤ Int.tdiv (|newPrice - lastPrice| * (BASIS_POINTS : Int)) lastPrice then
    (true, UpdateReason.DeviationThreshold)
  else if lastTime + heartbeatSec ≤ newTime then (true, UpdateReason.HeartbeatExpired)
  else (false, UpdateReason.FirstUpdate)

/-! ## Concrete fixtures for witnesses -/

/-- A registered, active feed used by the witnesses. -/
def testConfig : FeedConfig :=
  ⟨1, 5, 2, 6, 8, "ETH/USD", 50, 3600, 0, 0, 10, true⟩

/-- A reactor holding testConfig under key 42, owned by address 1. -/
def testReactor : ReactorState :=
  { feeds := fun f => if f = 42 then testConfig else emptyFeedConfig
    metrics := fun _ => zeroMetrics
    feedIds := [42]
    owner := 1 }

/-- A reactor where the FeedId derived from (1, 5) is already taken. -/
def testReactorReg : ReactorState :=
  { feeds := fun f => if f = feedIdOf 1 5 then testConfig else emptyFeedConfig
    metrics := fun _ => zeroMetrics
    feedIds := [feedIdOf 1 5]
    owner := 1 }

/-! ## Claim theorems -/

/-- Claim C1: on an active feed, a pollFeed call whose roundId is at or
below the lastProcessedRoundId watermark succeeds, returns
forward = false, and leaves the whole reactor state (hence the polled feed
FeedConfig fields and all FeedMetrics counters) unchanged. -/
theorem pollFeed_replay_guard (s : ReactorState) (feedId roundId : Nat)
    (answer : Int) (updatedAt answeredInRound : Nat)
    (hact : (s.feeds feedId).active = true)
    (haddr : (s.feeds feedId).feedAddress ≠ 0)
    (hdup : roundId ≤ (s.feeds feedId).lastProcessedRoundId) :
    pollFeed s feedId roundId answer updatedAt answeredInRound =
      Except.ok (s, false, UpdateReason.FirstUpdate) := by
  unfold pollFeed
  simp [hact, haddr, hdup]

/-- Witness for C1 at a concrete reactor state and round number. -/
theorem pollFeed_replay_guard_witness :
    pollFeed testReactor 42 10 5 77 0 =
      Except.ok (testReactor, false, UpdateReason.FirstUpdate) :=
  pollFeed_replay_guard testReactor 42 10 5 77 0 (by decide) (by decide) (by decide)

/-- Any successful pollFeed call either hits the replay guard and leaves
the state untouched, or is on a fresh round and rewrites exactly the
config of the polled feed with lastProcessedRoundId set to the new round. -/
theorem pollFeed_ok_cases (s : ReactorState) (feedId roundId : Nat)
    (answer : Int) (updatedAt answeredInRound : Nat)
    (s' : ReactorState) (b : Bool) (r : UpdateReason)
    (h : pollFeed s feedId roundId answer updatedAt answeredInRound =
      Except.ok (s', b, r)) :
    (s' = s ∧ roundId ≤ (s.feeds feedId).lastProcessedRoundId) ∨
    ((s.feeds feedId).lastProcessedRoundId < roundId ∧
      s'.feeds = fun f =>
        if f = feedId then { s.feeds feedId with lastProcessedRoundId := roundId }
        else s.feeds f) := by
  unfold pollFeed at h
  by_cases h1 : ¬ ((s.feeds feedId).active = true ∧ (s.feeds feedId).feedAddress ≠ 0)
  · rw [if_pos h1] at h
    exact absurd h (by simp)
  · rw [if_neg h1] at h
    by_cases h2 : roundId ≤ (s.feeds feedId).lastProcessedRoundId
    · rw [if_pos h2] at h
      simp only [Except.ok.injEq, Prod.mk.injEq] at h
      exact Or.inl ⟨h.1.symm, h2⟩
    · rw [if_neg h2] at h
      refine Or.inr ⟨Nat.lt_of_not_le h2, ?_⟩
      by_cases h3 : answer ≤ 0
      · rw [if_pos h3] at h
        simp only [Except.ok.injEq, Prod.mk.injEq] at h
        rw [← h.1]
      · rw [if_neg h3] at h
        rcases hm : shouldForward
            { s.feeds feedId with lastProcessedRoundId := roundId } answer updatedAt with
          _ | ⟨b', r'⟩
        · rw [hm] at h
          exact absurd h (by simp)
        · rw [hm] at h
          dsimp only [] at h
          by_cases hb : b' = false
          · rw [if_pos hb] at h
            simp only [Except.ok.injEq, Prod.mk.injEq] at h
            rw [← h.1]
          · rw [if_neg hb] at h
            simp only [Except.ok.injEq, Prod.mk.injEq] at h
            rw [← h.1]

/-- One pollFeed call never lowers the watermark of any feed. -/
theorem pollStep_watermark_mono (s : ReactorState) (q : PollReq) (g : Nat) :
    (s.feeds g).lastProcessedRoundId ≤ ((pollStep s q).feeds g).lastProcessedRoundId := by
  unfold pollStep
  rcases hp : pollFeed s q.feedId q.roundId q.answer q.updatedAt q.answeredInRound with
    _ | ⟨s', b, r⟩
  · simp
  · simp only
    rcases pollFeed_ok_cases s q.feedId q.roundId q.answer q.updatedAt q.answeredInRound
        s' b r hp with ⟨hs, _⟩ | ⟨hlt, hfeeds⟩
    · rw [hs]
    · rw [hfeeds]
      by_cases hg : g = q.feedId
      · subst hg
        simp only [if_pos rfl]
        exact Nat.le_of_lt hlt
      · simp only [if_neg hg]
        exact Nat.le_refl _

/-- No sequence of pollFeed calls lowers any feed their watermark. -/
theorem applyPolls_watermark_mono (s : ReactorState) (l : List PollReq) (g : Nat) :
    (s.feeds g).lastProcessedRoundId ≤ ((applyPolls s l).feeds g).lastProcessedRoundId := by
  induction l generalizing s with
  | nil => exact Nat.le_refl _
  | cons q l ih =>
    exact Nat.le_trans (pollStep_watermark_mono s q g) (ih (pollStep s q))

/-- Claim C2: on an active feed with a fresh round number, every
successful pollFeed call commits lastProcessedRoundId = roundId no
matter how the observation is then judged, and across any sequence of
pollFeed calls for every feed the lastProcessedRoundId is non-decreasing. -/
theorem pollFeed_watermark_commit_mono :
    (∀ (s : ReactorState) (feedId roundId : Nat) (answer : Int)
      (updatedAt answeredInRound : Nat) (s' : ReactorState) (b : Bool) (r : UpdateReason),
      (s.feeds feedId).active = true →
      (s.feeds feedId).feedAddress ≠ 0 →
      (s.feeds feedId).lastProcessedRoundId < roundId →
      pollFeed s feedId roundId answer updatedAt answeredInRound = Except.ok (s', b, r) →
      (s'.feeds feedId).lastProcessedRoundId = roundId) ∧
    (∀ (s : ReactorState) (l : List PollReq) (g : Nat),
      (s.feeds g).lastProcessedRoundId ≤ ((applyPolls s l).feeds g).lastProcessedRoundId) := by
  constructor
  · intro s feedId roundId answer updatedAt answeredInRound s' b r _ _ hfresh hok
    rcases pollFeed_ok_cases s feedId roundId answer updatedAt answeredInRound s' b r hok with
      ⟨_, hdup⟩ | ⟨_, hfeeds⟩
    · exact absurd hdup (Nat.not_le.mpr hfresh)
    · rw [hfeeds]
      simp
  · exact applyPolls_watermark_mono

/-- Witness for C2: a fresh round on the test reactor commits the
watermark, and a one-call sequence keeps it non-decreasing. -/
theorem pollFeed_watermark_commit_mono_witness :
    ((pollStep testReactor ⟨42, 11, 5, 77, 0⟩).feeds 42).lastProcessedRoundId = 11 ∧
    (testReactor.feeds 42).lastProcessedRoundId ≤
      ((applyPolls testReactor [⟨42, 11, 5, 77, 0⟩]).feeds 42).lastProcessedRoundId :=
  ⟨pollFeed_watermark_commit_mono.1 testReactor 42 11 5 77 0
      (pollStep testReactor ⟨42, 11, 5, 77, 0⟩) true UpdateReason.FirstUpdate
      (by decide) (by decide) (by decide) rfl,
    pollFeed_watermark_commit_mono.2 testReactor [⟨42, 11, 5, 77, 0⟩] 42⟩

/-- Claim C3: pollFeed never changes the lastSentPrice of any feed or
lastSentTime (forwarding verdicts included); confirmForward on an
active feed sets them to the passed value and timestamp and bumps
updatesForwarded plus the reason-specific trigger counter. -/
theorem lastSent_only_confirmForward :
    (∀ (s : ReactorState) (feedId roundId : Nat) (answer : Int)
      (updatedAt answeredInRound : Nat) (s' : ReactorState) (b : Bool) (r : UpdateReason)
      (g : Nat),
      pollFeed s feedId roundId answer updatedAt answeredInRound = Except.ok (s', b, r) →
      (s'.feeds g).lastSentPrice = (s.feeds g).lastSentPrice ∧
      (s'.feeds g).lastSentTime = (s.feeds g).lastSentTime) ∧
    (∀ (s : ReactorState) (feedId : Nat) (answer : Int) (updatedAt : Nat)
      (reason : UpdateReason),
      (s.feeds feedId).active = true →
      ∃ s', confirmForward s feedId answer updatedAt reason = Except.ok s' ∧
        (s'.feeds feedId).lastSentPrice = answer ∧
        (s'.feeds feedId).lastSentTime = updatedAt ∧
        (s'.metrics feedId).updatesForwarded = (s.metrics feedId).updatesForwarded + 1 ∧
        (s'.metrics feedId).deviationTriggered = (s.metrics feedId).deviationTriggered +
          (if reason = UpdateReason.DeviationThreshold then 1 else 0) ∧
        (s'.metrics feedId).heartbeatTriggered = (s.metrics feedId).heartbeatTriggered +
          (if reason = UpdateReason.HeartbeatExpired then 1 else 0)) := by
  constructor
  · intro s feedId roundId answer updatedAt answeredInRound s' b r g hok
    rcases pollFeed_ok_cases s feedId roundId answer updatedAt answeredInRound s' b r hok with
      ⟨hs, _⟩ | ⟨_, hfeeds⟩
    · rw [hs]
      exact ⟨rfl, rfl⟩
    · rw [hfeeds]
      by_cases hg : g = feedId
      · subst hg
        simp
      · simp [hg]
  · intro s feedId answer updatedAt reason hact
    unfold confirmForward
    rw [if_neg (by simp [hact])]
    refine ⟨_, rfl, ?_, ?_, ?_, ?_, ?_⟩ <;> simp

/-- Witness for C3 at a concrete forwarded poll and a concrete confirm. -/
theorem lastSent_only_confirmForward_witness :
    (((pollStep testReactor ⟨42, 11, 5, 77, 0⟩).feeds 42).lastSentPrice =
        (testReactor.feeds 42).lastSentPrice ∧
      ((pollStep testReactor ⟨42, 11, 5, 77, 0⟩).feeds 42).lastSentTime =
        (testReactor.feeds 42).lastSentTime) ∧
    (∃ s', confirmForward testReactor 42 5 77 UpdateReason.DeviationThreshold =
        Except.ok s' ∧
      (s'.feeds 42).lastSentPrice = 5 ∧
      (s'.feeds 42).lastSentTime = 77 ∧
      (s'.metrics 42).updatesForwarded = (testReactor.metrics 42).updatesForwarded + 1 ∧
      (s'.metrics 42).deviationTriggered = (testReactor.metrics 42).deviationTriggered +
        (if UpdateReason.DeviationThreshold = UpdateReason.DeviationThreshold then 1 else 0) ∧
      (s'.metrics 42).heartbeatTriggered = (testReactor.metrics 42).heartbeatTriggered +
        (if UpdateReason.DeviationThreshold = UpdateReason.HeartbeatExpired then 1 else 0)) :=
  ⟨lastSent_only_confirmForward.1 testReactor 42 11 5 77 0
      (pollStep testReactor ⟨42, 11, 5, 77, 0⟩) true UpdateReason.FirstUpdate 42 rfl,
    lastSent_only_confirmForward.2 testReactor 42 5 77 UpdateReason.DeviationThreshold
      (by decide)⟩

/-- For a positive stored price in int256 range and a non-overflowing
product, _calculateDeviation computes |new - old| * 10000 / old in
natural-number arithmetic. -/
theorem calculateDeviation_pos (p old : Int) (hold : 0 < old)
    (holdr : old ≤ INT256_MAX) (hp : 0 ≤ p) (hpr : p ≤ INT256_MAX)
    (hno : (p - old).natAbs * BASIS_POINTS < UINT256_MOD) :
    calculateDeviation p old = some ((p - old).natAbs * BASIS_POINTS / old.toNat) := by
  have h0 : ¬ old = 0 := ne_of_gt hold
  have habs : (if old < p then p - old else old - p) = ((p - old).natAbs : Int) := by
    rw [← Int.abs_eq_natAbs]
    rcases lt_or_le old p with h | h
    · rw [if_pos h, abs_of_nonneg (by omega)]
    · rw [if_neg (not_lt.mpr h), abs_of_nonpos (by omega)]
      ring
  have hMle : INT256_MAX < (UINT256_MOD : Int) := by norm_num [INT256_MAX, UINT256_MOD]
  have h1 : ¬ INT256_MAX < ((p - old).natAbs : Int) := by
    rw [not_lt, ← Int.abs_eq_natAbs, abs_le]
    constructor <;> omega
  have h2 : ¬ UINT256_MOD ≤ (p - old).natAbs * BASIS_POINTS := Nat.not_le.mpr hno
  have hmod : old % (UINT256_MOD : Int) = old :=
    Int.emod_eq_of_lt (le_of_lt hold) (by omega)
  simp only [calculateDeviation]
  rw [if_neg h0, habs, if_neg h1, Int.toNat_natCast, if_neg h2, hmod]

/-- Claim C4: with a positive fresh value against a feed whose stored
price is a plausible int256 (non-negative, in range, no overflow in the
intermediate products), the source policy _shouldForward agrees with the
spec first-match rule list decideSpec. -/
theorem shouldForward_refines_decideSpec (cfg : FeedConfig) (newPrice : Int)
    (newTime : Nat)
    (hp : 0 < newPrice) (hpr : newPrice ≤ INT256_MAX)
    (hl : 0 ≤ cfg.lastSentPrice) (hlr : cfg.lastSentPrice ≤ INT256_MAX)
    (hno : (newPrice - cfg.lastSentPrice).natAbs * BASIS_POINTS < UINT256_MOD)
    (hhb : cfg.lastSentTime + cfg.heartbeat < UINT256_MOD) :
    shouldForward cfg newPrice newTime =
      some (decideSpec cfg.lastSentPrice cfg.lastSentTime cfg.deviationThreshold
        cfg.heartbeat newPrice newTime) := by
  by_cases h0 : cfg.lastSentPrice = 0
  · simp [shouldForward, decideSpec, h0]
  · have hold : 0 < cfg.lastSentPrice := lt_of_le_of_ne hl (Ne.symm h0)
    have hdev := calculateDeviation_pos newPrice cfg.lastSentPrice hold hlr
      (le_of_lt hp) hpr hno
    unfold shouldForward decideSpec
    rw [if_neg h0, if_neg h0, hdev]
    dsimp only []
    have hcond : ((cfg.deviationThreshold : Int) ≤
        Int.tdiv (|newPrice - cfg.lastSentPrice| * (BASIS_POINTS : Int)) cfg.lastSentPrice) ↔
        (cfg.deviationThreshold ≤
          (newPrice - cfg.lastSentPrice).natAbs * BASIS_POINTS / cfg.lastSentPrice.toNat) := by
      obtain ⟨n, hn⟩ : ∃ n : Nat, cfg.lastSentPrice = (n : Int) :=
        ⟨cfg.lastSentPrice.toNat, (Int.toNat_of_nonneg hl).symm⟩
      rw [hn, Int.toNat_natCast,
        show |newPrice - (n : Int)| * (BASIS_POINTS : Int) =
            (((newPrice - (n : Int)).natAbs * BASIS_POINTS : Nat) : Int) from by
          rw [Int.abs_eq_natAbs]
          push_cast
          ring,
        ← Int.ofNat_tdiv]
      exact Int.ofNat_le
    simp only [hcond]
    rw [if_neg (Nat.not_le.mpr hhb)]
    split_ifs <;> rfl

/-- Witness for C4 at a concrete non-trivial config (stored price 100,
threshold 50 bps, heartbeat 3600) and a 1 percent move. -/
theorem shouldForward_refines_decideSpec_witness :
    shouldForward ⟨1, 5, 2, 6, 8, "ETH/USD", 50, 3600, 100, 1000, 10, true⟩ 101 2000 =
      some (decideSpec 100 1000 50 3600 101 2000) :=
  shouldForward_refines_decideSpec ⟨1, 5, 2, 6, 8, "ETH/USD", 50, 3600, 100, 1000, 10, true⟩
    101 2000 (by norm_num) (by norm_num [INT256_MAX]) (by norm_num)
    (by norm_num [INT256_MAX]) (by norm_num [BASIS_POINTS, UINT256_MOD])
    (by norm_num [UINT256_MOD])

/-- The reactor errors the spec groups under InvalidConfig: the four
require messages guarding the configuration arguments of registerFeed. -/
def isInvalidConfigErr : RErr → Bool
  | RErr.InvalidFeedAddress => true
  | RErr.InvalidProxyAddress => true
  | RErr.InvalidDeviation => true
  | RErr.HeartbeatTooShort => true
  | _ => false

/-- Claim C8: called by the owner, registerFeed rejects a bad
configuration with one of the InvalidConfig-class errors, rejects a
FeedId already present with FeedAlreadyRegistered, and otherwise stores
a fresh FeedConfig (watermarks zero, active) with the metrics of that feed
still zeroed, returning the derived FeedId. -/
theorem registerFeed_spec (s : ReactorState) (sender : Nat)
    (originChainId feedAddress destinationChainId destinationProxy decimals : Nat)
    (description : String) (deviationThreshold heartbeat : Nat)
    (hsender : sender = s.owner) :
    (¬ (0 < deviationThreshold ∧ deviationThreshold ≤ BASIS_POINTS) ∨ heartbeat < 60 ∨
        feedAddress = 0 ∨ destinationProxy = 0 →
      ∃ e, registerFeed s sender originChainId feedAddress destinationChainId
          destinationProxy decimals description deviationThreshold heartbeat =
          Except.error e ∧ isInvalidConfigErr e = true) ∧
    ((0 < deviationThreshold ∧ deviationThreshold ≤ BASIS_POINTS) → 60 ≤ heartbeat →
      feedAddress ≠ 0 → destinationProxy ≠ 0 →
      (s.feeds (feedIdOf originChainId feedAddress)).feedAddress ≠ 0 →
      registerFeed s sender originChainId feedAddress destinationChainId
        destinationProxy decimals description deviationThreshold heartbeat =
        Except.error RErr.FeedAlreadyRegistered) ∧
    ((0 < deviationThreshold ∧ deviationThreshold ≤ BASIS_POINTS) → 60 ≤ heartbeat →
      feedAddress ≠ 0 → destinationProxy ≠ 0 →
      (s.feeds (feedIdOf originChainId feedAddress)).feedAddress = 0 →
      s.metrics (feedIdOf originChainId feedAddress) = zeroMetrics →
      ∃ s', registerFeed s sender originChainId feedAddress destinationChainId
          destinationProxy decimals description deviationThreshold heartbeat =
          Except.ok (s', feedIdOf originChainId feedAddress) ∧
        s'.feeds (feedIdOf originChainId feedAddress) =
          ⟨originChainId, feedAddress, destinationChainId, destinationProxy,
            decimals, description, deviationThreshold, heartbeat, 0, 0, 0, true⟩ ∧
        s'.metrics (feedIdOf originChainId feedAddress) = zeroMetrics) := by
  have howner : ¬ sender ≠ s.owner := fun hne => hne hsender
  refine ⟨?_, ?_, ?_⟩
  · intro hinv
    unfold registerFeed
    rw [if_neg howner]
    by_cases hfa : feedAddress = 0
    · refine ⟨RErr.InvalidFeedAddress, ?_, rfl⟩
      rw [if_pos hfa]
    · rw [if_neg hfa]
      by_cases hdp : destinationProxy = 0
      · refine ⟨RErr.InvalidProxyAddress, ?_, rfl⟩
        rw [if_pos hdp]
      · rw [if_neg hdp]
        by_cases hdev : 0 < deviationThreshold ∧ deviationThreshold ≤ BASIS_POINTS
        · rw [if_neg (not_not_intro hdev)]
          have hhb : heartbeat < 60 := by
            rcases hinv with h | h | h | h
            · exact absurd hdev h
            · exact h
            · exact absurd h hfa
            · exact absurd h hdp
          refine ⟨RErr.HeartbeatTooShort, ?_, rfl⟩
          rw [if_pos hhb]
        · refine ⟨RErr.InvalidDeviation, ?_, rfl⟩
          rw [if_pos hdev]
  · intro hdev hhb hfa hdp hreg
    unfold registerFeed
    rw [if_neg howner, if_neg hfa, if_neg hdp, if_neg (not_not_intro hdev),
      if_neg (Nat.not_lt.mpr hhb), if_pos hreg]
  · intro hdev hhb hfa hdp hfree hm
    unfold registerFeed
    rw [if_neg howner, if_neg hfa, if_neg hdp, if_neg (not_not_intro hdev),
      if_neg (Nat.not_lt.mpr hhb), if_neg (not_not_intro hfree)]
    refine ⟨_, rfl, ?_, ?_⟩
    · simp
    · simpa using hm

/-- Witness for C8: an invalid deviation is rejected, a taken FeedId is
rejected, and a fresh registration on the test reactor succeeds. -/
theorem registerFeed_spec_witness :
    (∃ e, registerFeed testReactor 1 1 5 2 6 8 "LINK/USD" 0 3600 =
        Except.error e ∧ isInvalidConfigErr e = true) ∧
    (registerFeed testReactorReg 1 1 5 2 6 8 "LINK/USD" 50 3600 =
      Except.error RErr.FeedAlreadyRegistered) ∧
    (∃ s', registerFeed testReactor 1 1 5 2 6 8 "LINK/USD" 50 3600 =
        Except.ok (s', feedIdOf 1 5) ∧
      s'.feeds (feedIdOf 1 5) = ⟨1, 5, 2, 6, 8, "LINK/USD", 50, 3600, 0, 0, 0, true⟩ ∧
      s'.metrics (feedIdOf 1 5) = zeroMetrics) :=
  ⟨(registerFeed_spec testReactor 1 1 5 2 6 8 "LINK/USD" 0 3600 rfl).1
      (Or.inl (by decide)),
    (registerFeed_spec testReactorReg 1 1 5 2 6 8 "LINK/USD" 50 3600 rfl).2.1
      (by decide) (by decide) (by decide) (by decide) (by decide),
    (registerFeed_spec testReactor 1 1 5 2 6 8 "LINK/USD" 50 3600 rfl).2.2
      (by decide) (by decide) (by decide) (by decide) (by decide) (by decide)⟩

/-- Claim C9: whenever the stored owner is not the contract address, a
registerFeedDefault call reverts for every caller, owner included,
because the external self-call makes the contract the sender of the
inner registerFeed and its owner check fails. -/
theorem registerFeedDefault_always_reverts (s : ReactorState)
    (sender contractAddr : Nat)
    (originChainId feedAddress destinationChainId destinationProxy decimals : Nat)
    (description : String)
    (h : s.owner ≠ contractAddr) :
    registerFeedDefault s sender contractAddr originChainId feedAddress
      destinationChainId destinationProxy decimals description =
      Except.error RErr.NotOwner := by
  unfold registerFeedDefault
  by_cases hs : sender ≠ s.owner
  · rw [if_pos hs]
  · rw [if_neg hs]
    unfold registerFeed
    rw [if_pos (fun hc : contractAddr = s.owner => h hc.symm)]

/-- Witness for C9: the owner itself calls registerFeedDefault on a
reactor whose owner is not the contract address, and the call fails. -/
theorem registerFeedDefault_always_reverts_witness :
    registerFeedDefault testReactor 1 99 3 7 2 6 8 "BTC/USD" =
      Except.error RErr.NotOwner :=
  registerFeedDefault_always_reverts testReactor 1 99 3 7 2 6 8 "BTC/USD" (by decide)

/-- A FeedProxy with heartbeat 3600, address 7 authorized to write. -/
def testProxy : ProxyState :=
  { heartbeat := 3600
    latestRound := zeroRound
    rounds := fun _ => zeroRound
    owner := 1
    authorizedSenders := fun a => a == 7
    paused := false
    totalUpdates := 0 }

/-- The same store, administratively paused. -/
def testProxyPaused : ProxyState := { testProxy with paused := true }

/-- Inversion of a successful updateRoundData call: the round was fresh,
the observation is not from the future, and the post-state is the
pre-state with the new record stored, the latestRound pointer moved and
totalUpdates bumped. -/
theorem updateRoundData_ok_inv (s : ProxyState) (sender blockTimestamp : Nat)
    (roundId : Nat) (answer : Int) (updatedAt answeredInRound : Nat) (s' : ProxyState)
    (h : updateRoundData s sender blockTimestamp roundId answer updatedAt answeredInRound =
      Except.ok s') :
    s.latestRound.roundId < roundId ∧ updatedAt ≤ blockTimestamp ∧
    s' = { s with
      latestRound := ⟨roundId, answeredInRound, updatedAt, updatedAt % UINT32_MOD, answer⟩,
      rounds := fun r =>
        if r = roundId then ⟨roundId, answeredInRound, updatedAt, updatedAt % UINT32_MOD, answer⟩
        else s.rounds r,
      totalUpdates := s.totalUpdates + 1 } := by
  unfold updateRoundData at h
  split at h
  next => exact absurd h (by simp)
  next h1 =>
  split at h
  next => exact absurd h (by simp)
  next h2 =>
  split at h
  next => exact absurd h (by simp)
  next h3 =>
  split at h
  next => exact absurd h (by simp)
  next h4 =>
  split at h
  next => exact absurd h (by simp)
  next h5 =>
  split at h
  next => exact absurd h (by simp)
  next h6 =>
  split at h
  next => exact absurd h (by simp)
  next h7 =>
  refine ⟨Nat.lt_of_not_le h3, Nat.le_of_not_lt h5, ?_⟩
  simp only [Except.ok.injEq] at h
  exact h.symm

/-- One write (successful or reverting) never lowers the latest round. -/
theorem applyWrite_latest_mono (s : ProxyState) (w : WriteReq) :
    s.latestRound.roundId ≤ (applyWrite s w).latestRound.roundId := by
  unfold applyWrite
  rcases hw : updateRoundData s w.sender w.time w.roundId w.answer w.updatedAt
      w.answeredInRound with e | s'
  · exact Nat.le_refl _
  · obtain ⟨hlt, _, hs⟩ := updateRoundData_ok_inv s w.sender w.time w.roundId w.answer
      w.updatedAt w.answeredInRound s' hw
    rw [hs]
    exact Nat.le_of_lt hlt

/-- Store invariant: no round beyond the latest pointer is populated. -/
def StoreInv (s : ProxyState) : Prop :=
  ∀ r, s.latestRound.roundId < r → s.rounds r = zeroRound

/-- A fresh FeedProxy satisfies the store invariant. -/
theorem proxyInit_inv (ownerAddr heartbeat : Nat) : StoreInv (proxyInit ownerAddr heartbeat) :=
  fun _ _ => rfl

/-- One write preserves the store invariant. -/
theorem applyWrite_inv (s : ProxyState) (w : WriteReq) (h : StoreInv s) :
    StoreInv (applyWrite s w) := by
  unfold applyWrite
  rcases hw : updateRoundData s w.sender w.time w.roundId w.answer w.updatedAt
      w.answeredInRound with e | s'
  · exact h
  · obtain ⟨hlt, _, hs⟩ := updateRoundData_ok_inv s w.sender w.time w.roundId w.answer
      w.updatedAt w.answeredInRound s' hw
    rw [hs]
    intro r hr
    simp only at hr
    have hne : r ≠ w.roundId := by omega
    simp only [if_neg hne]
    exact h r (by omega)

/-- A sequence of writes preserves the store invariant. -/
theorem applyWrites_inv (s : ProxyState) (l : List WriteReq) (h : StoreInv s) :
    StoreInv (applyWrites s l) := by
  induction l generalizing s with
  | nil => exact h
  | cons w l ih => exact ih (applyWrite s w) (applyWrite_inv s w h)

/-- One write leaves every round at or below the latest pointer as is. -/
theorem applyWrite_preserves (s : ProxyState) (w : WriteReq) (n : Nat)
    (hn : n ≤ s.latestRound.roundId) : (applyWrite s w).rounds n = s.rounds n := by
  unfold applyWrite
  rcases hw : updateRoundData s w.sender w.time w.roundId w.answer w.updatedAt
      w.answeredInRound with e | s'
  · rfl
  · obtain ⟨hlt, _, hs⟩ := updateRoundData_ok_inv s w.sender w.time w.roundId w.answer
      w.updatedAt w.answeredInRound s' hw
    rw [hs]
    have hne : n ≠ w.roundId := by omega
    simp only [if_neg hne]

/-- A sequence of writes leaves every round at or below the latest
pointer as is, given the store invariant. -/
theorem applyWrites_preserves (s : ProxyState) (l : List WriteReq) (n : Nat)
    (hinv : StoreInv s) (hn : n ≤ s.latestRound.roundId) :
    (applyWrites s l).rounds n = s.rounds n := by
  induction l generalizing s with
  | nil => rfl
  | cons w l ih =>
    have hstep : (applyWrite s w).rounds n = s.rounds n := applyWrite_preserves s w n hn
    have hrest := ih (applyWrite s w) (applyWrite_inv s w hinv)
      (Nat.le_trans hn (applyWrite_latest_mono s w))
    exact hrest.trans hstep

/-- A sequence of writes leaves every round at or below the latest
pointer as is (no invariant needed: a successful later write always
targets a strictly larger round number). -/
theorem applyWrites_preserves_of_le (s : ProxyState) (l : List WriteReq) (n : Nat)
    (hn : n ≤ s.latestRound.roundId) : (applyWrites s l).rounds n = s.rounds n := by
  induction l generalizing s with
  | nil => rfl
  | cons w l ih =>
    exact (ih (applyWrite s w) (Nat.le_trans hn (applyWrite_latest_mono s w))).trans
      (applyWrite_preserves s w n hn)

/-- Whether some write in the call history l, run from state s, both
succeeds and targets round m — that is, whether round m is successfully
written during l. Submitted writes of m that revert do not count. -/
def roundWrittenIn (s : ProxyState) (l : List WriteReq) (m : Nat) : Bool :=
  match l with
  | [] => false
  | w :: l =>
    ((match updateRoundData s w.sender w.time w.roundId w.answer w.updatedAt
        w.answeredInRound with
      | Except.ok _ => true
      | Except.error _ => false) && w.roundId == m) ||
    roundWrittenIn (applyWrite s w) l m

/-- A history in which round m is never successfully written leaves its
mapping slot unpopulated. -/
theorem roundWrittenIn_false_preserves (l : List WriteReq) (s : ProxyState) (m : Nat)
    (h0 : s.rounds m = zeroRound) (h : roundWrittenIn s l m = false) :
    (applyWrites s l).rounds m = zeroRound := by
  induction l generalizing s with
  | nil => exact h0
  | cons w l ih =>
    simp only [roundWrittenIn, Bool.or_eq_false_iff] at h
    obtain ⟨ha, hb⟩ := h
    have hstep : (applyWrite s w).rounds m = zeroRound := by
      unfold applyWrite
      rcases hq : updateRoundData s w.sender w.time w.roundId w.answer w.updatedAt
          w.answeredInRound with e | s'
      · exact h0
      · rw [hq] at ha
        simp only [Bool.true_and] at ha
        have hne : w.roundId ≠ m := by simpa using ha
        obtain ⟨_, _, hs⟩ := updateRoundData_ok_inv s w.sender w.time w.roundId w.answer
          w.updatedAt w.answeredInRound s' hq
        rw [hs]
        simp only [if_neg (fun hmm : m = w.roundId => hne hmm.symm)]
        exact h0
    exact ih (applyWrite s w) hstep hb

/-- Claim C5: updateRoundData applies its checks in order — caller
authorization, pause flag, strict round monotonicity, positive value,
staleness — failing with exactly the first violated one, and on success
persists the record, moves the latestRound pointer and bumps
totalUpdates by one. Stated for observations not from the future and a
heartbeat whose doubling does not overflow. -/
theorem updateRoundData_check_order (s : ProxyState) (sender blockTimestamp : Nat)
    (roundId : Nat) (answer : Int) (updatedAt answeredInRound : Nat)
    (huat : updatedAt ≤ blockTimestamp)
    (hhb : s.heartbeat * 2 < UINT256_MOD) :
    (s.authorizedSenders sender = false →
      updateRoundData s sender blockTimestamp roundId answer updatedAt answeredInRound =
        Except.error PErr.Unauthorized) ∧
    (s.authorizedSenders sender = true → s.paused = true →
      updateRoundData s sender blockTimestamp roundId answer updatedAt answeredInRound =
        Except.error PErr.Paused) ∧
    (s.authorizedSenders sender = true → s.paused = false →
      roundId ≤ s.latestRound.roundId →
      updateRoundData s sender blockTimestamp roundId answer updatedAt answeredInRound =
        Except.error PErr.InvalidRound) ∧
    (s.authorizedSenders sender = true → s.paused = false →
      s.latestRound.roundId < roundId → answer ≤ 0 →
      updateRoundData s sender blockTimestamp roundId answer updatedAt answeredInRound =
        Except.error PErr.InvalidAnswer) ∧
    (s.authorizedSenders sender = true → s.paused = false →
      s.latestRound.roundId < roundId → 0 < answer →
      s.heartbeat * 2 < blockTimestamp - updatedAt →
      updateRoundData s sender blockTimestamp roundId answer updatedAt answeredInRound =
        Except.error PErr.StaleData) ∧
    (s.authorizedSenders sender = true → s.paused = false →
      s.latestRound.roundId < roundId → 0 < answer →
      blockTimestamp - updatedAt ≤ s.heartbeat * 2 →
      ∃ s', updateRoundData s sender blockTimestamp roundId answer updatedAt answeredInRound =
          Except.ok s' ∧
        s'.rounds roundId =
          ⟨roundId, answeredInRound, updatedAt, updatedAt % UINT32_MOD, answer⟩ ∧
        s'.latestRound =
          ⟨roundId, answeredInRound, updatedAt, updatedAt % UINT32_MOD, answer⟩ ∧
        s'.totalUpdates = s.totalUpdates + 1) := by
  refine ⟨?_, ?_, ?_, ?_, ?_, ?_⟩
  · intro h1
    unfold updateRoundData
    rw [if_pos h1]
  · intro h1 h2
    unfold updateRoundData
    rw [if_neg (by simp [h1]), if_pos h2]
  · intro h1 h2 h3
    unfold updateRoundData
    rw [if_neg (by simp [h1]), if_neg (by simp [h2]), if_pos h3]
  · intro h1 h2 h3 h4
    unfold updateRoundData
    rw [if_neg (by simp [h1]), if_neg (by simp [h2]), if_neg (Nat.not_le.mpr h3), if_pos h4]
  · intro h1 h2 h3 h4 h5
    unfold updateRoundData
    rw [if_neg (by simp [h1]), if_neg (by simp [h2]), if_neg (Nat.not_le.mpr h3),
      if_neg (not_le.mpr h4), if_neg (Nat.not_lt.mpr huat), if_neg (Nat.not_le.mpr hhb),
      if_pos h5]
  · intro h1 h2 h3 h4 h5
    unfold updateRoundData
    rw [if_neg (by simp [h1]), if_neg (by simp [h2]), if_neg (Nat.not_le.mpr h3),
      if_neg (not_le.mpr h4), if_neg (Nat.not_lt.mpr huat), if_neg (Nat.not_le.mpr hhb),
      if_neg (Nat.not_lt.mpr h5)]
    refine ⟨_, rfl, ?_, rfl, rfl⟩
    simp

/-- Witness for C5: each of the five rejections and the success branch
hit at concrete inputs on the test store. -/
theorem updateRoundData_check_order_witness :
    (updateRoundData testProxy 8 100 1 5 50 1 = Except.error PErr.Unauthorized) ∧
    (updateRoundData testProxyPaused 7 100 1 5 50 1 = Except.error PErr.Paused) ∧
    (updateRoundData testProxy 7 100 0 5 50 1 = Except.error PErr.InvalidRound) ∧
    (updateRoundData testProxy 7 100 1 0 50 1 = Except.error PErr.InvalidAnswer) ∧
    (updateRoundData testProxy 7 10000 1 5 0 1 = Except.error PErr.StaleData) ∧
    (∃ s', updateRoundData testProxy 7 100 1 5 50 1 = Except.ok s' ∧
      s'.rounds 1 = ⟨1, 1, 50, 50 % UINT32_MOD, 5⟩ ∧
      s'.latestRound = ⟨1, 1, 50, 50 % UINT32_MOD, 5⟩ ∧
      s'.totalUpdates = testProxy.totalUpdates + 1) :=
  ⟨(updateRoundData_check_order testProxy 8 100 1 5 50 1 (by decide)
      (by norm_num [UINT256_MOD, testProxy])).1 (by decide),
    (updateRoundData_check_order testProxyPaused 7 100 1 5 50 1 (by decide)
      (by norm_num [UINT256_MOD, testProxyPaused, testProxy])).2.1 (by decide) (by decide),
    (updateRoundData_check_order testProxy 7 100 0 5 50 1 (by decide)
      (by norm_num [UINT256_MOD, testProxy])).2.2.1 (by decide) (by decide) (by decide),
    (updateRoundData_check_order testProxy 7 100 1 0 50 1 (by decide)
      (by norm_num [UINT256_MOD, testProxy])).2.2.2.1 (by decide) (by decide) (by decide)
      (by decide),
    (updateRoundData_check_order testProxy 7 10000 1 5 0 1 (by decide)
      (by norm_num [UINT256_MOD, testProxy])).2.2.2.2.1 (by decide) (by decide) (by decide)
      (by decide) (by decide),
    (updateRoundData_check_order testProxy 7 100 1 5 50 1 (by decide)
      (by norm_num [UINT256_MOD, testProxy])).2.2.2.2.2 (by decide) (by decide) (by decide)
      (by decide) (by decide)⟩

/-- Claim C6: across successful writes the latestRound.roundId strictly
increases; a fresh store satisfies the invariant that nothing beyond the
latest pointer is populated, writes preserve that invariant, and under
it a populated round is never modified by any later sequence of write
calls. -/
theorem roundStore_monotone_immutable :
    (∀ (s : ProxyState) (sender blockTimestamp roundId : Nat) (answer : Int)
      (updatedAt answeredInRound : Nat) (s' : ProxyState),
      updateRoundData s sender blockTimestamp roundId answer updatedAt answeredInRound =
        Except.ok s' →
      s.latestRound.roundId < s'.latestRound.roundId) ∧
    (∀ ownerAddr heartbeat : Nat, StoreInv (proxyInit ownerAddr heartbeat)) ∧
    (∀ (s : ProxyState) (l : List WriteReq), StoreInv s → StoreInv (applyWrites s l)) ∧
    (∀ (s : ProxyState) (l : List WriteReq) (n : Nat), StoreInv s →
      s.rounds n ≠ zeroRound → (applyWrites s l).rounds n = s.rounds n) := by
  refine ⟨?_, proxyInit_inv, applyWrites_inv, ?_⟩
  · intro s sender blockTimestamp roundId answer updatedAt answeredInRound s' h
    obtain ⟨hlt, _, hs⟩ := updateRoundData_ok_inv s sender blockTimestamp roundId answer
      updatedAt answeredInRound s' h
    rw [hs]
    exact hlt
  · intro s l n hinv hn
    have hle : n ≤ s.latestRound.roundId := by
      by_contra hgt
      exact hn (hinv n (Nat.lt_of_not_le hgt))
    exact applyWrites_preserves s l n hinv hle

/-- Witness for C6: a concrete successful write strictly bumps the
latest round, and the stored round 1 survives a later write of round 2. -/
theorem roundStore_monotone_immutable_witness :
    (testProxy.latestRound.roundId <
      (applyWrite testProxy ⟨7, 100, 1, 5, 50, 1⟩).latestRound.roundId) ∧
    ((applyWrites (applyWrite testProxy ⟨7, 100, 1, 5, 50, 1⟩)
        [⟨7, 200, 2, 9, 150, 2⟩]).rounds 1 =
      (applyWrite testProxy ⟨7, 100, 1, 5, 50, 1⟩).rounds 1) :=
  ⟨roundStore_monotone_immutable.1 testProxy 7 100 1 5 50 1
      (applyWrite testProxy ⟨7, 100, 1, 5, 50, 1⟩) rfl,
    roundStore_monotone_immutable.2.2.2 (applyWrite testProxy ⟨7, 100, 1, 5, 50, 1⟩)
      [⟨7, 200, 2, 9, 150, 2⟩] 1
      (roundStore_monotone_immutable.2.2.1 testProxy [⟨7, 100, 1, 5, 50, 1⟩]
        (fun _ _ => rfl))
      (by decide)⟩

/-- Claim C7 counterexample: the store keeps only 32 bits of the
timestamp and getRoundData treats a zero stored timestamp as absent, so
a write with observedAt = 2^32 succeeds and the round then reads back
NoDataAvailable instead of the written record. -/
theorem getRoundData_truncation_counterexample :
    (updateRoundData testProxy 7 (2 ^ 32) 1 100 (2 ^ 32) 1 =
      Except.ok (applyWrite testProxy ⟨7, 2 ^ 32, 1, 100, 2 ^ 32, 1⟩)) ∧
    getRoundData (applyWrite testProxy ⟨7, 2 ^ 32, 1, 100, 2 ^ 32, 1⟩) 1 =
      Except.error PErr.NoDataAvailable :=
  ⟨rfl, rfl⟩

/-- Claim C7 as amended: for a written observedAt inside (0, 2^32) — so
that the 32-bit stored timestamp is nonzero and untruncated — a
getRoundData on the written round n after any further sequence of write
calls (none of which can touch round n) returns exactly the written
record, and a round number that is never successfully written in the
call history from a fresh store reads back NoDataAvailable. -/
theorem getRoundData_after_write :
    (∀ (s : ProxyState) (sender blockTimestamp roundId : Nat) (answer : Int)
      (updatedAt answeredInRound : Nat) (s' : ProxyState) (l : List WriteReq),
      0 < updatedAt → updatedAt < UINT32_MOD →
      updateRoundData s sender blockTimestamp roundId answer updatedAt answeredInRound =
        Except.ok s' →
      getRoundData (applyWrites s' l) roundId =
        Except.ok (roundId, answer, updatedAt, updatedAt, answeredInRound)) ∧
    (∀ (ownerAddr heartbeat : Nat) (l : List WriteReq) (m : Nat),
      roundWrittenIn (proxyInit ownerAddr heartbeat) l m = false →
      getRoundData (applyWrites (proxyInit ownerAddr heartbeat) l) m =
        Except.error PErr.NoDataAvailable) := by
  constructor
  · intro s sender blockTimestamp roundId answer updatedAt answeredInRound s' l hpos hlt hok
    obtain ⟨_, _, hs⟩ := updateRoundData_ok_inv s sender blockTimestamp roundId answer
      updatedAt answeredInRound s' hok
    have hle : roundId ≤ s'.latestRound.roundId := by
      rw [hs]
    have hpres := applyWrites_preserves_of_le s' l roundId hle
    unfold getRoundData
    rw [hpres, hs]
    simp [Nat.mod_eq_of_lt hlt, Nat.pos_iff_ne_zero.mp hpos]
  · intro ownerAddr heartbeat l m h
    have hz : (applyWrites (proxyInit ownerAddr heartbeat) l).rounds m = zeroRound :=
      roundWrittenIn_false_preserves l (proxyInit ownerAddr heartbeat) m rfl h
    unfold getRoundData
    rw [hz]
    rfl

/-- Witness for the amended C7: a concrete write of round 1 reads back
exactly even after an intervening successful write of round 2, and a
history whose only write of round 2 reverts (unauthorized sender on a
fresh store) leaves round 2 reading back NoDataAvailable. -/
theorem getRoundData_after_write_witness :
    (getRoundData (applyWrites (applyWrite testProxy ⟨7, 100, 1, 5, 50, 1⟩)
        [⟨7, 200, 2, 9, 150, 2⟩]) 1 = Except.ok (1, 5, 50, 50, 1)) ∧
    (getRoundData (applyWrites (proxyInit 1 3600) [⟨7, 100, 2, 5, 50, 2⟩]) 2 =
      Except.error PErr.NoDataAvailable) :=
  ⟨getRoundData_after_write.1 testProxy 7 100 1 5 50 1
      (applyWrite testProxy ⟨7, 100, 1, 5, 50, 1⟩) [⟨7, 200, 2, 9, 150, 2⟩]
      (by decide) (by decide) rfl,
    getRoundData_after_write.2 1 3600 [⟨7, 100, 2, 5, 50, 2⟩] 2 (by decide)⟩

/-- Claim C10: an authorized, unpaused write of a fresh round with a
positive value but an observation timestamp in the future reverts (the
checked subtraction blockTimestamp - updatedAt underflows) leaving the
state unchanged, and dually every successful write stores startedAt at
or before the block time of the write. -/
theorem updateRoundData_future_timestamp :
    (∀ (s : ProxyState) (sender blockTimestamp roundId : Nat) (answer : Int)
      (updatedAt answeredInRound : Nat),
      s.authorizedSenders sender = true → s.paused = false →
      s.latestRound.roundId < roundId → 0 < answer → blockTimestamp < updatedAt →
      updateRoundData s sender blockTimestamp roundId answer updatedAt answeredInRound =
        Except.error PErr.Panic ∧
      applyWrite s ⟨sender, blockTimestamp, roundId, answer, updatedAt, answeredInRound⟩ = s) ∧
    (∀ (s : ProxyState) (sender blockTimestamp roundId : Nat) (answer : Int)
      (updatedAt answeredInRound : Nat) (s' : ProxyState),
      updateRoundData s sender blockTimestamp roundId answer updatedAt answeredInRound =
        Except.ok s' →
      s'.latestRound.startedAt ≤ blockTimestamp ∧
      (s'.rounds roundId).startedAt ≤ blockTimestamp) := by
  constructor
  · intro s sender blockTimestamp roundId answer updatedAt answeredInRound h1 h2 h3 h4 h5
    have herr : updateRoundData s sender blockTimestamp roundId answer updatedAt
        answeredInRound = Except.error PErr.Panic := by
      unfold updateRoundData
      rw [if_neg (by simp [h1]), if_neg (by simp [h2]), if_neg (Nat.not_le.mpr h3),
        if_neg (not_le.mpr h4), if_pos h5]
    refine ⟨herr, ?_⟩
    unfold applyWrite
    dsimp only
    rw [herr]
  · intro s sender blockTimestamp roundId answer updatedAt answeredInRound s' h
    obtain ⟨_, hle, hs⟩ := updateRoundData_ok_inv s sender blockTimestamp roundId answer
      updatedAt answeredInRound s' h
    rw [hs]
    simp only [if_pos rfl]
    exact ⟨hle, hle⟩

/-- Witness for C10: a future-dated observation is rejected with the
state intact, and a concrete successful write stores its timestamp at or
before the write time. -/
theorem updateRoundData_future_timestamp_witness :
    (updateRoundData testProxy 7 100 1 5 200 1 = Except.error PErr.Panic ∧
      applyWrite testProxy ⟨7, 100, 1, 5, 200, 1⟩ = testProxy) ∧
    ((applyWrite testProxy ⟨7, 100, 1, 5, 50, 1⟩).latestRound.startedAt ≤ 100 ∧
      ((applyWrite testProxy ⟨7, 100, 1, 5, 50, 1⟩).rounds 1).startedAt ≤ 100) :=
  ⟨updateRoundData_future_timestamp.1 testProxy 7 100 1 5 200 1 (by decide) (by decide)
      (by decide) (by decide) (by decide),
    updateRoundData_future_timestamp.2 testProxy 7 100 1 5 50 1
      (applyWrite testProxy ⟨7, 100, 1, 5, 50, 1⟩) rfl⟩

end ChainlinkMirror
